import Mathlib

/-!
Verification of the hybrid vulnerability-detection core
(static_analysis.py, ml_model.py, hybrid_detector.py).

The Python regular expressions are embedded as a small regex language with a
Brzozowski-derivative matcher; `re.Pattern.search` on a line becomes matching
the regex anywhere inside the line.  Python floats appear only in order
comparisons here, so probabilities and thresholds are modelled as rationals.
The classifier pipeline loaded from disk is opaque to the core and is
modelled as an abstract scoring function `String → ℚ` (its
`predict_proba(...)[0][1]` value); presence of the artifact on disk and the
process-wide cached model are explicit state threaded through `Except`.
-/

namespace MajorProject

/-! ### Regex engine (shallow embedding of the `re` patterns used) -/

inductive Regex where
  | nul : Regex
  | eps : Regex
  | cls (p : Char → Bool) : Regex
  | cat (a b : Regex) : Regex
  | alt (a b : Regex) : Regex
  | star (a : Regex) : Regex

def mkCat : Regex → Regex → Regex
  | Regex.nul, _ => Regex.nul
  | _, Regex.nul => Regex.nul
  | Regex.eps, b => b
  | a, Regex.eps => a
  | a, b => Regex.cat a b

def mkAlt : Regex → Regex → Regex
  | Regex.nul, b => b
  | a, Regex.nul => a
  | a, b => Regex.alt a b

def nullable : Regex → Bool
  | Regex.nul => false
  | Regex.eps => true
  | Regex.cls _ => false
  | Regex.cat a b => nullable a && nullable b
  | Regex.alt a b => nullable a || nullable b
  | Regex.star _ => true

def deriv : Regex → Char → Regex
  | Regex.nul, _ => Regex.nul
  | Regex.eps, _ => Regex.nul
  | Regex.cls p, c => if p c then Regex.eps else Regex.nul
  | Regex.cat a b, c =>
    if nullable a then mkAlt (mkCat (deriv a c) b) (deriv b c)
    else mkCat (deriv a c) b
  | Regex.alt a b, c => mkAlt (deriv a c) (deriv b c)
  | Regex.star a, c => mkCat (deriv a c) (Regex.star a)

def rmatch (r : Regex) (s : List Char) : Bool :=
  nullable (s.foldl deriv r)

def anyChar : Regex := Regex.cls fun _ => true

/-- `re.Pattern.search`: the regex matches somewhere inside the string. -/
def rsearch (r : Regex) (s : List Char) : Bool :=
  rmatch (Regex.cat (Regex.star anyChar) (Regex.cat r (Regex.star anyChar))) s

def rchar (c : Char) : Regex := Regex.cls fun x => x == c

/-- A single character, case-insensitively (re.IGNORECASE). -/
def richar (c : Char) : Regex := Regex.cls fun x => x.toLower == c.toLower

def rstr (s : String) : Regex :=
  s.data.foldr (fun c r => mkCat (rchar c) r) Regex.eps

def ristr (s : String) : Regex :=
  s.data.foldr (fun c r => mkCat (richar c) r) Regex.eps

def rplus (r : Regex) : Regex := Regex.cat r (Regex.star r)

def repN : Nat → Regex → Regex
  | 0, _ => Regex.eps
  | n + 1, r => Regex.cat r (repN n r)

/-- Python `\s` (ASCII part: space, tab, newline, carriage return, vertical tab, form feed). -/
def isPySpace (c : Char) : Bool :=
  c == ' ' || c == '\t' || c == '\n' || c == '\r' || c == Char.ofNat 11 || c == Char.ofNat 12

def pySpaceCls : Regex := Regex.cls isPySpace

/-- Python `.`: any character except a newline. -/
def dotCls : Regex := Regex.cls fun c => !(c == '\n')

/-- Python `\w` (ASCII part), used for `\b` word boundaries. -/
def isWordChar (c : Char) : Bool := c.isAlpha || c.isDigit || c == '_'

def listStartsWith : List Char → List Char → Bool
  | [], _ => true
  | _ :: _, [] => false
  | k :: ks, c :: cs => k == c && listStartsWith ks cs

def boundaryBefore : Option Char → Bool
  | none => true
  | some c => !(isWordChar c)

/-- `re.search` for `\b` followed by a literal keyword starting with a word
character: an occurrence whose preceding character (if any) is not a word
character. -/
def searchWordAux (kw : List Char) : Option Char → List Char → Bool
  | prev, [] => boundaryBefore prev && listStartsWith kw []
  | prev, c :: rest =>
    (boundaryBefore prev && listStartsWith kw (c :: rest)) || searchWordAux kw (some c) rest

def searchWord (kw : String) (s : List Char) : Bool :=
  searchWordAux kw.data none s

/-! ### The six compiled patterns of static_analysis.py -/

def sqlKeyword : Regex :=
  Regex.alt (ristr "SELECT") (Regex.alt (ristr "UPDATE") (Regex.alt (ristr "DELETE") (ristr "INSERT")))

/-- `(SELECT|UPDATE|DELETE|INSERT)\s+.+\s+(FROM|INTO)\s+.+\+.+`, IGNORECASE. -/
def sqlRegex1 : Regex :=
  Regex.cat sqlKeyword
    (Regex.cat (rplus pySpaceCls)
      (Regex.cat (rplus dotCls)
        (Regex.cat (rplus pySpaceCls)
          (Regex.cat (Regex.alt (ristr "FROM") (ristr "INTO"))
            (Regex.cat (rplus pySpaceCls)
              (Regex.cat (rplus dotCls)
                (Regex.cat (rchar '+') (rplus dotCls))))))))

/-- `(SELECT|UPDATE|DELETE|INSERT).*(%s|\{.*\})`, IGNORECASE. -/
def sqlRegex2 : Regex :=
  Regex.cat sqlKeyword
    (Regex.cat (Regex.star dotCls)
      (Regex.alt (Regex.cat (rchar '%') (richar 's'))
        (Regex.cat (rchar (Char.ofNat 123))
          (Regex.cat (Regex.star dotCls) (rchar (Char.ofNat 125))))))

def credKeyword : Regex :=
  Regex.alt (ristr "password")
    (Regex.alt (ristr "passwd")
      (Regex.alt (ristr "pwd")
        (Regex.alt (ristr "secret")
          (Regex.alt (ristr "token") (ristr "api_key")))))

def quoteCls : Regex :=
  Regex.cls fun c => c == Char.ofNat 39 || c == Char.ofNat 34

/-- `(password|passwd|pwd|secret|token|api_key)\s*=\s*['\"].+['\"]`, IGNORECASE. -/
def credRegex1 : Regex :=
  Regex.cat credKeyword
    (Regex.cat (Regex.star pySpaceCls)
      (Regex.cat (rchar '=')
        (Regex.cat (Regex.star pySpaceCls)
          (Regex.cat quoteCls (Regex.cat (rplus dotCls) quoteCls)))))

/-- `AKIA[0-9A-Z]{16}` (case sensitive). -/
def credRegex2 : Regex :=
  Regex.cat (rstr "AKIA") (repN 16 (Regex.cls fun c => c.isDigit || c.isUpper))

/-- A compiled pattern: the source text of the regex (Python `pattern.pattern`)
together with its `search` behaviour on a line. -/
structure RulePattern where
  pat : String
  search : List Char → Bool

def SQL_INJECTION_PATTERNS : List RulePattern :=
  [⟨"(SELECT|UPDATE|DELETE|INSERT)\\s+.+\\s+(FROM|INTO)\\s+.+\\+.+", rsearch sqlRegex1⟩,
   ⟨"(SELECT|UPDATE|DELETE|INSERT).*(%s|\\\x7b.*\\\x7d)", rsearch sqlRegex2⟩]

def HARDCODED_CREDENTIAL_PATTERNS : List RulePattern :=
  [⟨"(password|passwd|pwd|secret|token|api_key)\\s*=\\s*[\x27\\\x22].+[\x27\\\x22]", rsearch credRegex1⟩,
   ⟨"AKIA[0-9A-Z]\x7b16\x7d", rsearch credRegex2⟩]

def UNSAFE_EVAL_PATTERNS : List RulePattern :=
  [⟨"\\beval\\(", searchWord "eval("⟩,
   ⟨"\\bexec\\(", searchWord "exec("⟩]

/-! ### Line handling: str.splitlines and str.strip -/

def isLineBreakChar (c : Char) : Bool :=
  c == '\n' || c == '\r' || c == Char.ofNat 11 || c == Char.ofNat 12 ||
  c == Char.ofNat 28 || c == Char.ofNat 29 || c == Char.ofNat 30 ||
  c == Char.ofNat 133 || c == Char.ofNat 8232 || c == Char.ofNat 8233

def splitlinesAux : List Char → List Char → List (List Char)
  | [], acc => if acc.isEmpty then [] else [acc.reverse]
  | '\r' :: '\n' :: rest, acc => acc.reverse :: splitlinesAux rest []
  | c :: rest, acc =>
    if isLineBreakChar c then acc.reverse :: splitlinesAux rest []
    else splitlinesAux rest (c :: acc)

/-- Python `str.splitlines()`. -/
def splitlines (s : String) : List (List Char) :=
  splitlinesAux s.data []

/-- Python `str.strip()` (ASCII whitespace). -/
def pyStrip (s : List Char) : List Char :=
  ((s.dropWhile isPySpace).reverse.dropWhile isPySpace).reverse

/-! ### static_analysis.py: findings and scanning -/

structure Finding where
  rule : String
  line : Nat
  snippet : String
  pattern : String
deriving DecidableEq

/-- The inner loop body of `_scan_patterns`: all findings one line contributes,
in pattern order. -/
def scanLine (patterns : List RulePattern) (rule_name : String) (idx : Nat)
    (line : List Char) : List Finding :=
  patterns.filterMap fun p =>
    if p.search line then some ⟨rule_name, idx, String.mk (pyStrip line), p.pat⟩ else none

def scanFrom (patterns : List RulePattern) (rule_name : String) :
    Nat → List (List Char) → List Finding
  | _, [] => []
  | idx, line :: rest =>
    scanLine patterns rule_name idx line ++ scanFrom patterns rule_name (idx + 1) rest

/-- `_scan_patterns(lines, patterns, rule_name)`: enumerate lines from 1. -/
def _scan_patterns (lines : List (List Char)) (patterns : List RulePattern)
    (rule_name : String) : List Finding :=
  scanFrom patterns rule_name 1 lines

/-- `analyze_code_static(code)`. -/
def analyze_code_static (code : String) : List Finding :=
  let lines := splitlines code
  _scan_patterns lines SQL_INJECTION_PATTERNS "SQL_INJECTION" ++
    _scan_patterns lines HARDCODED_CREDENTIAL_PATTERNS "HARDCODED_CREDENTIAL" ++
    _scan_patterns lines UNSAFE_EVAL_PATTERNS "UNSAFE_EVAL"

/-- The rule groups in their declaration order in static_analysis.py. -/
def ruleGroups : List (String × List RulePattern) :=
  [("SQL_INJECTION", SQL_INJECTION_PATTERNS),
   ("HARDCODED_CREDENTIAL", HARDCODED_CREDENTIAL_PATTERNS),
   ("UNSAFE_EVAL", UNSAFE_EVAL_PATTERNS)]

/-! ### ml_model.py -/

/-- The ScoreResult dict returned by `predict_vulnerability`. -/
structure ScoreResult where
  label : String
  probability : ℚ
deriving DecidableEq

/-- The opaque loaded pipeline, seen through `predict_proba([code])[0][1]`. -/
def Model := String → ℚ

inductive MLError where
  | fileNotFoundError (msg : String)
deriving DecidableEq

/-- The ambient state of ml_model.py: the artifact on disk at the configured
path (`none` = file missing) and the process-wide `_MODEL` cache. -/
structure MLEnv where
  model_path : String
  artifact : Option Model
  cache : Option Model

/-- `load_model()`: return the cached model, else load it from disk,
raising FileNotFoundError when the artifact is absent. -/
def load_model (env : MLEnv) : Except MLError (Model × MLEnv) :=
  match env.cache with
  | some m => Except.ok (m, env)
  | none =>
    match env.artifact with
    | none =>
      Except.error (MLError.fileNotFoundError
        ("ML model not found at " ++ env.model_path ++
          ". Run train_model.py first to train and save the model."))
    | some m => Except.ok (m, ⟨env.model_path, env.artifact, some m⟩)

/-- `predict_vulnerability(code, threshold)`. -/
def predict_vulnerability (env : MLEnv) (code : String) (threshold : ℚ) :
    Except MLError (ScoreResult × MLEnv) :=
  match load_model env with
  | Except.error e => Except.error e
  | Except.ok (model, env2) =>
    let proba := model code
    let label := if threshold ≤ proba then "vulnerable" else "safe"
    Except.ok (⟨label, proba⟩, env2)

/-! ### hybrid_detector.py -/

/-- `compute_severity(static_findings, ml_result, ml_threshold)`. -/
def compute_severity (static_findings : List Finding) (ml_result : ScoreResult)
    (ml_threshold : ℚ) : String :=
  let has_static := static_findings.length > 0
  let ml_prob := ml_result.probability
  let ml_flag := ml_threshold ≤ ml_prob ∨ ml_result.label = "vulnerable"
  if has_static ∧ ml_flag then "HIGHty"
  else if has_static ∨ ml_flag then "MEDIUM"
  else "SAFEtt"

structure Report where
  file_path : String
  static_findings : List Finding
  ml_result : ScoreResult
  severity : String

/-- `analyze_file(file_path, code)`; thresholds left at their default 0.5. -/
def analyze_file (env : MLEnv) (file_path : String) (code : String) :
    Except MLError (Report × MLEnv) :=
  let static_findings := analyze_code_static code
  match predict_vulnerability env code (mkRat 1 2) with
  | Except.error e => Except.error e
  | Except.ok (ml_result, env2) =>
    Except.ok
      (⟨file_path, static_findings, ml_result,
        compute_severity static_findings ml_result (mkRat 1 2)⟩, env2)

/-! ### Spec-side characterizations -/

/-- The spec's description of the emission order of one rule group: iterate
lines in ascending order and emit one (line number, pattern text) pair per
matching pattern, in pattern order. -/
def linePairs (patterns : List RulePattern) : Nat → List (List Char) → List (Nat × String)
  | _, [] => []
  | idx, l :: rest =>
    ((patterns.filter fun p => p.search l).map fun p => (idx, p.pat)) ++
      linePairs patterns (idx + 1) rest

/-- A line matches no pattern of any rule group. -/
def matchesNoRulePattern (l : List Char) : Bool :=
  ruleGroups.all fun g => g.2.all fun p => !(p.search l)

/-! ### Helper lemmas about the scanner -/

theorem mem_scanLine {patterns : List RulePattern} {rule_name : String} {idx : Nat}
    {l : List Char} {f : Finding} (h : f ∈ scanLine patterns rule_name idx l) :
    f.rule = rule_name ∧ f.line = idx ∧ f.snippet = String.mk (pyStrip l) ∧
      ∃ p ∈ patterns, p.pat = f.pattern ∧ p.search l = true := by
  rw [scanLine, List.mem_filterMap] at h
  obtain ⟨p, hp, hf⟩ := h
  by_cases hs : p.search l = true
  · rw [if_pos hs] at hf
    cases hf.symm
    exact ⟨rfl, rfl, rfl, p, hp, rfl, hs⟩
  · rw [if_neg hs] at hf
    exact absurd hf (by simp)

theorem mem_scanFrom {patterns : List RulePattern} {rule_name : String} {f : Finding} :
    ∀ {idx : Nat} {lines : List (List Char)}, f ∈ scanFrom patterns rule_name idx lines →
      f.rule = rule_name ∧ idx ≤ f.line ∧ f.line < idx + lines.length ∧
        f.snippet = String.mk (pyStrip (lines.getD (f.line - idx) [])) ∧
        ∃ p ∈ patterns, p.pat = f.pattern ∧ p.search (lines.getD (f.line - idx) []) = true := by
  intro idx lines
  induction lines generalizing idx with
  | nil => intro h; exact absurd h (by simp [scanFrom])
  | cons l rest ih =>
    intro h
    rw [scanFrom, List.mem_append] at h
    rcases h with h | h
    · obtain ⟨hr, hl, hsn, hp⟩ := mem_scanLine h
      refine ⟨hr, hl ▸ Nat.le_refl idx, ?_, ?_, ?_⟩
      · rw [hl]; simp
      · rw [hl, Nat.sub_self]; exact hsn
      · rw [hl, Nat.sub_self]; exact hp
    · obtain ⟨hr, hge, hlt, hsn, hp⟩ := ih h
      have hget : (l :: rest).getD (f.line - idx) [] = rest.getD (f.line - (idx + 1)) [] := by
        have heq : f.line - idx = (f.line - (idx + 1)) + 1 := by omega
        rw [heq]; rfl
      refine ⟨hr, by omega, ?_, ?_, ?_⟩
      · simp only [List.length_cons]; omega
      · rw [hget]; exact hsn
      · rw [hget]; exact hp

theorem scanFrom_rule {patterns : List RulePattern} {rule_name : String} {idx : Nat}
    {lines : List (List Char)} {f : Finding} (h : f ∈ scanFrom patterns rule_name idx lines) :
    f.rule = rule_name :=
  (mem_scanFrom h).1

theorem filter_scanFrom_self (patterns : List RulePattern) (rule_name : String) (idx : Nat)
    (lines : List (List Char)) :
    (scanFrom patterns rule_name idx lines).filter (fun f => f.rule == rule_name) =
      scanFrom patterns rule_name idx lines := by
  apply List.filter_eq_self.mpr
  intro f hf
  simp [scanFrom_rule hf]

theorem filter_scanFrom_ne {rule_name other : String} (hne : rule_name ≠ other)
    (patterns : List RulePattern) (idx : Nat) (lines : List (List Char)) :
    (scanFrom patterns rule_name idx lines).filter (fun f => f.rule == other) = [] := by
  apply List.filter_eq_nil_iff.mpr
  intro f hf
  simp [scanFrom_rule hf, hne]

theorem scanLine_pairs (patterns : List RulePattern) (rule_name : String) (idx : Nat)
    (l : List Char) :
    (scanLine patterns rule_name idx l).map (fun f => (f.line, f.pattern)) =
      (patterns.filter fun p => p.search l).map fun p => (idx, p.pat) := by
  induction patterns with
  | nil => rfl
  | cons p ps ih =>
    by_cases hs : p.search l = true
    · simp only [scanLine, List.filterMap_cons, hs, if_pos, List.filter_cons,
        List.map_cons] at ih ⊢
      exact congrArg _ ih
    · simp only [Bool.not_eq_true] at hs
      simp only [scanLine, List.filterMap_cons, hs, List.filter_cons] at ih ⊢
      simpa using ih

theorem scanFrom_pairs (patterns : List RulePattern) (rule_name : String) :
    ∀ (idx : Nat) (lines : List (List Char)),
      (scanFrom patterns rule_name idx lines).map (fun f => (f.line, f.pattern)) =
        linePairs patterns idx lines := by
  intro idx lines
  induction lines generalizing idx with
  | nil => rfl
  | cons l rest ih =>
    rw [scanFrom, linePairs, List.map_append, scanLine_pairs, ih]

theorem linePairs_bound (patterns : List RulePattern) :
    ∀ (idx : Nat) (lines : List (List Char)) (pr : Nat × String),
      pr ∈ linePairs patterns idx lines → idx ≤ pr.1 := by
  intro idx lines
  induction lines generalizing idx with
  | nil => intro pr h; exact absurd h (by simp [linePairs])
  | cons l rest ih =>
    intro pr h
    rw [linePairs, List.mem_append] at h
    rcases h with h | h
    · obtain ⟨p, _, hpr⟩ := List.mem_map.mp h
      rw [← hpr]
    · exact Nat.le_of_succ_le (ih (idx + 1) pr h)

theorem pairwiseConstBlock (idx : Nat) (l : List RulePattern) :
    (l.map fun p => (idx, p.pat)).Pairwise
      (fun a b : Nat × String => a.1 ≤ b.1) := by
  induction l with
  | nil => exact List.Pairwise.nil
  | cons p ps ih =>
    rw [List.map_cons]
    refine List.Pairwise.cons ?_ ih
    intro b hb
    obtain ⟨q, _, hq⟩ := List.mem_map.mp hb
    rw [← hq]

theorem linePairs_pairwise (patterns : List RulePattern) :
    ∀ (idx : Nat) (lines : List (List Char)),
      (linePairs patterns idx lines).Pairwise (fun a b : Nat × String => a.1 ≤ b.1) := by
  intro idx lines
  induction lines generalizing idx with
  | nil => exact List.Pairwise.nil
  | cons l rest ih =>
    rw [linePairs, List.pairwise_append]
    refine ⟨?_, ih (idx + 1), ?_⟩
    · exact pairwiseConstBlock idx _
    · intro a ha b hb
      obtain ⟨p, _, hpr⟩ := List.mem_map.mp ha
      rw [← hpr]
      exact Nat.le_of_succ_le (linePairs_bound patterns (idx + 1) rest b hb)

/-! ### Claims -/

/-- C1: the claim says that with at least one rule match (static-flag true) and
probability ≥ threshold (ml-flag true), `compute_severity` returns exactly
"HIGH".  The code disagrees with the claim and with its own docstring
("If STATIC and ML both indicate potential issues -> 'HIGH'"): it returns the
string "HIGHty".  This theorem evaluates the code on such an input. -/
theorem spec_C1_bug :
    compute_severity [⟨"UNSAFE_EVAL", 1, "eval(x)", "\\beval\\("⟩]
        ⟨"vulnerable", mkRat 9 10⟩ (mkRat 1 2) = "HIGHty" ∧
      mkRat 1 2 ≤ mkRat 9 10 ∧ "HIGHty" ≠ "HIGH" := by
  refine ⟨?_, by decide, by decide⟩
  decide

/-- C2: the claim says that with no rule matches, probability < threshold and
label "safe", `compute_severity` returns exactly "SAFE".  The code disagrees
with the claim and with its own docstring ("If none -> 'SAFE'"): it returns
the string "SAFEtt".  This theorem evaluates the code on such an input. -/
theorem spec_C2_bug :
    compute_severity [] ⟨"safe", mkRat 1 4⟩ (mkRat 1 2) = "SAFEtt" ∧
      ¬mkRat 1 2 ≤ mkRat 1 4 ∧ "SAFEtt" ≠ "SAFE" := by
  refine ⟨?_, by decide, by decide⟩
  decide

/-- C3: when exactly one of the two flags is raised — static-flag
(findings non-empty) or ml-flag (probability ≥ threshold OR label
"vulnerable") — `compute_severity` returns exactly "MEDIUM". -/
theorem spec_C3 (fs : List Finding) (r : ScoreResult) (t : ℚ)
    (h : (fs ≠ [] ∧ ¬(t ≤ r.probability ∨ r.label = "vulnerable")) ∨
      (fs = [] ∧ (t ≤ r.probability ∨ r.label = "vulnerable"))) :
    compute_severity fs r t = "MEDIUM" := by
  rcases h with ⟨hne, hflag⟩ | ⟨heq, hflag⟩
  · have hs : fs.length > 0 := List.length_pos.mpr hne
    simp only [compute_severity]
    rw [if_neg fun hc => hflag hc.2, if_pos (Or.inl hs)]
  · subst heq
    simp only [compute_severity]
    rw [if_neg fun hc => by exact absurd hc.1 (by simp), if_pos (Or.inr hflag)]

/-- C3 witness: empty findings together with probability below the
threshold but label "vulnerable" yield "MEDIUM" — the label alone raises
the ml-flag. -/
theorem spec_C3_witness :
    ¬(mkRat 1 2 ≤ mkRat 1 4) ∧
      compute_severity [] ⟨"vulnerable", mkRat 1 4⟩ (mkRat 1 2) = "MEDIUM" :=
  ⟨by decide, spec_C3 [] ⟨"vulnerable", mkRat 1 4⟩ (mkRat 1 2) (Or.inr ⟨rfl, Or.inr rfl⟩)⟩

/-- C4: whenever `predict_vulnerability` succeeds, the label of the returned
ScoreResult is "vulnerable" exactly when the returned probability is ≥ the
given threshold, and "safe" otherwise; the label is always derived from the
probability, never taken from the underlying model. -/
theorem spec_C4 (env : MLEnv) (code : String) (t : ℚ) (r : ScoreResult) (env2 : MLEnv)
    (h : predict_vulnerability env code t = Except.ok (r, env2)) :
    (r.label = "vulnerable" ↔ t ≤ r.probability) ∧
      (r.label = "safe" ↔ ¬t ≤ r.probability) := by
  rw [predict_vulnerability] at h
  cases hl : load_model env with
  | error e => rw [hl] at h; exact absurd h (by simp)
  | ok pr =>
    obtain ⟨m, env3⟩ := pr
    rw [hl] at h
    simp only [Except.ok.injEq, Prod.mk.injEq] at h
    obtain ⟨hr, henv⟩ := h
    rw [← hr]
    by_cases ht : t ≤ m code
    · simp [ht]
    · simp [ht]

/-- C4 witness at a concrete environment and model. -/
theorem spec_C4_witness :
    ((ScoreResult.mk "vulnerable" (mkRat 3 4)).label = "vulnerable" ↔
        mkRat 1 2 ≤ (ScoreResult.mk "vulnerable" (mkRat 3 4)).probability) ∧
      ((ScoreResult.mk "vulnerable" (mkRat 3 4)).label = "safe" ↔
        ¬mkRat 1 2 ≤ (ScoreResult.mk "vulnerable" (mkRat 3 4)).probability) :=
  spec_C4 ⟨"models/code_vuln_model.joblib", some fun _ => mkRat 3 4, none⟩ "x = 1"
    (mkRat 1 2) ⟨"vulnerable", mkRat 3 4⟩
    ⟨"models/code_vuln_model.joblib", some fun _ => mkRat 3 4, some fun _ => mkRat 3 4⟩
    rfl

/-- C8: `compute_severity` is a pure function of the pair (non-emptiness of
the findings, ScoreResult): two calls whose findings agree on emptiness and
whose ScoreResults agree on probability and label return equal severities. -/
theorem spec_C8 (fs1 fs2 : List Finding) (r1 r2 : ScoreResult) (t : ℚ)
    (hfs : fs1 = [] ↔ fs2 = []) (hp : r1.probability = r2.probability)
    (hl : r1.label = r2.label) :
    compute_severity fs1 r1 t = compute_severity fs2 r2 t := by
  simp only [compute_severity, hp, hl]
  by_cases h1 : fs1 = []
  · rw [h1, hfs.mp h1]
  · have h2 : fs2 ≠ [] := fun hc => h1 (hfs.mpr hc)
    have s1 : fs1.length > 0 := List.length_pos.mpr h1
    have s2 : fs2.length > 0 := List.length_pos.mpr h2
    by_cases hf : t ≤ r2.probability ∨ r2.label = "vulnerable"
    · rw [if_pos ⟨s1, hf⟩, if_pos ⟨s2, hf⟩]
    · rw [if_neg fun hc => hf hc.2, if_pos (Or.inl s1),
        if_neg fun hc => hf hc.2, if_pos (Or.inl s2)]

/-- C8 witness: one finding versus two copies of it, same ScoreResult. -/
theorem spec_C8_witness :
    compute_severity [⟨"UNSAFE_EVAL", 2, "exec(x)", "\\bexec\\("⟩]
        ⟨"safe", mkRat 1 4⟩ (mkRat 1 2) =
      compute_severity
        [⟨"UNSAFE_EVAL", 2, "exec(x)", "\\bexec\\("⟩,
         ⟨"UNSAFE_EVAL", 2, "exec(x)", "\\bexec\\("⟩]
        ⟨"safe", mkRat 1 4⟩ (mkRat 1 2) :=
  spec_C8 [⟨"UNSAFE_EVAL", 2, "exec(x)", "\\bexec\\("⟩]
    [⟨"UNSAFE_EVAL", 2, "exec(x)", "\\bexec\\("⟩, ⟨"UNSAFE_EVAL", 2, "exec(x)", "\\bexec\\("⟩]
    ⟨"safe", mkRat 1 4⟩ ⟨"safe", mkRat 1 4⟩ (mkRat 1 2) (by decide) rfl rfl

/-- The three per-group scan results, as lemmas used by C5. -/
theorem filter_analyze (code : String) (rule_name : String) (patterns : List RulePattern)
    (hmem : (rule_name, patterns) ∈ ruleGroups) :
    (analyze_code_static code).filter (fun f => f.rule == rule_name) =
      scanFrom patterns rule_name 1 (splitlines code) := by
  simp only [ruleGroups, List.mem_cons, List.not_mem_nil, or_false, Prod.mk.injEq] at hmem
  simp only [analyze_code_static, _scan_patterns, List.filter_append]
  rcases hmem with ⟨hr, hp⟩ | ⟨hr, hp⟩ | ⟨hr, hp⟩ <;> subst hr <;> subst hp
  · rw [filter_scanFrom_self, filter_scanFrom_ne (by decide), filter_scanFrom_ne (by decide),
      List.append_nil, List.append_nil]
  · rw [filter_scanFrom_ne (by decide), filter_scanFrom_self, filter_scanFrom_ne (by decide),
      List.nil_append, List.append_nil]
  · rw [filter_scanFrom_ne (by decide), filter_scanFrom_ne (by decide), filter_scanFrom_self,
      List.nil_append, List.nil_append]

/-- C5: `analyze_code_static` groups its findings by rule in the fixed
declaration order SQL_INJECTION, HARDCODED_CREDENTIAL, UNSAFE_EVAL; within
each group, the (line, pattern) pairs are exactly one per line (in ascending
order) and matching pattern (in pattern order), so line numbers within a
group are ascending and a single line may yield several findings. -/
theorem spec_C5 (code : String) :
    (analyze_code_static code =
      (analyze_code_static code).filter (fun f => f.rule == "SQL_INJECTION") ++
        (analyze_code_static code).filter (fun f => f.rule == "HARDCODED_CREDENTIAL") ++
          (analyze_code_static code).filter (fun f => f.rule == "UNSAFE_EVAL")) ∧
      ∀ rule_name patterns, (rule_name, patterns) ∈ ruleGroups →
        ((analyze_code_static code).filter (fun f => f.rule == rule_name)).map
            (fun f => (f.line, f.pattern)) = linePairs patterns 1 (splitlines code) ∧
          (((analyze_code_static code).filter (fun f => f.rule == rule_name)).map
              (fun f => (f.line, f.pattern))).Pairwise (fun a b => a.1 ≤ b.1) := by
  constructor
  · rw [filter_analyze code "SQL_INJECTION" SQL_INJECTION_PATTERNS (by simp [ruleGroups]),
      filter_analyze code "HARDCODED_CREDENTIAL" HARDCODED_CREDENTIAL_PATTERNS
        (by simp [ruleGroups]),
      filter_analyze code "UNSAFE_EVAL" UNSAFE_EVAL_PATTERNS (by simp [ruleGroups])]
    simp only [analyze_code_static, _scan_patterns, List.append_assoc]
  · intro rule_name patterns hmem
    rw [filter_analyze code rule_name patterns hmem, scanFrom_pairs]
    exact ⟨rfl, linePairs_pairwise patterns 1 (splitlines code)⟩

/-- C5 witness, at the UNSAFE_EVAL group on a concrete input. -/
theorem spec_C5_witness :
    ((analyze_code_static "eval(x)").filter (fun f => f.rule == "UNSAFE_EVAL")).map
        (fun f => (f.line, f.pattern)) =
      linePairs UNSAFE_EVAL_PATTERNS 1 (splitlines "eval(x)") ∧
      (((analyze_code_static "eval(x)").filter (fun f => f.rule == "UNSAFE_EVAL")).map
          (fun f => (f.line, f.pattern))).Pairwise (fun a b => a.1 ≤ b.1) :=
  (spec_C5 "eval(x)").2 "UNSAFE_EVAL" UNSAFE_EVAL_PATTERNS (by simp [ruleGroups])

/-- C9: every finding of `analyze_code_static` is internally consistent with
the input: its 1-based line number is within bounds, its snippet is the
stripped text of that line, its rule is one of the three rule groups, and its
pattern field is the text of a pattern of that group matching that line. -/
theorem spec_C9 (code : String) (f : Finding) (h : f ∈ analyze_code_static code) :
    1 ≤ f.line ∧ f.line ≤ (splitlines code).length ∧
      f.snippet = String.mk (pyStrip ((splitlines code).getD (f.line - 1) [])) ∧
      ∃ patterns, (f.rule, patterns) ∈ ruleGroups ∧
        ∃ p ∈ patterns, p.pat = f.pattern ∧
          p.search ((splitlines code).getD (f.line - 1) []) = true := by
  simp only [analyze_code_static, _scan_patterns, List.mem_append] at h
  rcases h with (h | h) | h
  · obtain ⟨hr, hge, hlt, hsn, hp⟩ := mem_scanFrom h
    exact ⟨hge, by omega, hsn, SQL_INJECTION_PATTERNS, by rw [hr]; simp [ruleGroups], hp⟩
  · obtain ⟨hr, hge, hlt, hsn, hp⟩ := mem_scanFrom h
    exact ⟨hge, by omega, hsn, HARDCODED_CREDENTIAL_PATTERNS, by rw [hr]; simp [ruleGroups], hp⟩
  · obtain ⟨hr, hge, hlt, hsn, hp⟩ := mem_scanFrom h
    exact ⟨hge, by omega, hsn, UNSAFE_EVAL_PATTERNS, by rw [hr]; simp [ruleGroups], hp⟩

/-- C9 witness, at a concrete finding of a concrete input. -/
theorem spec_C9_witness :
    1 ≤ (Finding.mk "UNSAFE_EVAL" 1 "eval(x)" "\\beval\\(").line ∧
      (Finding.mk "UNSAFE_EVAL" 1 "eval(x)" "\\beval\\(").line ≤
        (splitlines "eval(x)").length ∧
      (Finding.mk "UNSAFE_EVAL" 1 "eval(x)" "\\beval\\(").snippet =
        String.mk (pyStrip ((splitlines "eval(x)").getD
          ((Finding.mk "UNSAFE_EVAL" 1 "eval(x)" "\\beval\\(").line - 1) [])) ∧
      ∃ patterns,
        ((Finding.mk "UNSAFE_EVAL" 1 "eval(x)" "\\beval\\(").rule, patterns) ∈ ruleGroups ∧
        ∃ p ∈ patterns, p.pat = (Finding.mk "UNSAFE_EVAL" 1 "eval(x)" "\\beval\\(").pattern ∧
          p.search ((splitlines "eval(x)").getD
            ((Finding.mk "UNSAFE_EVAL" 1 "eval(x)" "\\beval\\(").line - 1) []) = true :=
  spec_C9 "eval(x)" ⟨"UNSAFE_EVAL", 1, "eval(x)", "\\beval\\("⟩ (by decide)

/-- C6: on a 5-line input whose third line is `password = "abc123"` and whose
other lines match no pattern of any rule group, `analyze_code_static` returns
exactly one finding: rule HARDCODED_CREDENTIAL at line 3 (1-based numbering
over the original splitlines, snippet trimmed). -/
theorem spec_C6 (code : String) (l1 l2 l4 l5 : List Char)
    (hsplit : splitlines code = [l1, l2, "password = \x22abc123\x22".data, l4, l5])
    (h1 : matchesNoRulePattern l1 = true) (h2 : matchesNoRulePattern l2 = true)
    (h4 : matchesNoRulePattern l4 = true) (h5 : matchesNoRulePattern l5 = true) :
    analyze_code_static code =
      [⟨"HARDCODED_CREDENTIAL", 3, "password = \x22abc123\x22",
        "(password|passwd|pwd|secret|token|api_key)\\s*=\\s*[\x27\\\x22].+[\x27\\\x22]"⟩] := by
  simp only [matchesNoRulePattern, ruleGroups, SQL_INJECTION_PATTERNS,
    HARDCODED_CREDENTIAL_PATTERNS, UNSAFE_EVAL_PATTERNS, List.all_cons, List.all_nil,
    Bool.and_eq_true, Bool.not_eq_true', and_true] at h1 h2 h4 h5
  have c1 : rsearch credRegex1 "password = \x22abc123\x22".data = true := by decide
  have c2 : rsearch credRegex2 "password = \x22abc123\x22".data = false := by decide
  have s1 : rsearch sqlRegex1 "password = \x22abc123\x22".data = false := by decide
  have s2 : rsearch sqlRegex2 "password = \x22abc123\x22".data = false := by decide
  have e1 : searchWord "eval(" "password = \x22abc123\x22".data = false := by decide
  have e2 : searchWord "exec(" "password = \x22abc123\x22".data = false := by decide
  have st : String.mk (pyStrip "password = \x22abc123\x22".data) =
      "password = \x22abc123\x22" := by decide
  simp [analyze_code_static, hsplit, _scan_patterns, scanFrom, scanLine,
    SQL_INJECTION_PATTERNS, HARDCODED_CREDENTIAL_PATTERNS, UNSAFE_EVAL_PATTERNS,
    h1, h2, h4, h5, c1, c2, s1, s2, e1, e2, st]

/-- C6 witness, on a concrete 5-line file. -/
theorem spec_C6_witness :
    analyze_code_static "a\nb\npassword = \x22abc123\x22\nd\ne" =
      [⟨"HARDCODED_CREDENTIAL", 3, "password = \x22abc123\x22",
        "(password|passwd|pwd|secret|token|api_key)\\s*=\\s*[\x27\\\x22].+[\x27\\\x22]"⟩] :=
  spec_C6 "a\nb\npassword = \x22abc123\x22\nd\ne" "a".data "b".data "d".data "e".data
    (by decide) (by decide) (by decide) (by decide) (by decide)

/-- C7: when the classifier artifact is absent on the cold path, `load_model`
raises FileNotFoundError, `predict_vulnerability` propagates it and
`analyze_file` propagates it unmodified: its errors are exactly the scorer's
errors, and every successful result is fully populated, with the severity
computed from the returned sub-results (never a substituted "SAFE"). -/
theorem spec_C7 (env : MLEnv) (p code : String) :
    (env.cache = none → env.artifact = none →
      analyze_file env p code =
        Except.error (MLError.fileNotFoundError
          ("ML model not found at " ++ env.model_path ++
            ". Run train_model.py first to train and save the model."))) ∧
      (∀ e : MLError, analyze_file env p code = Except.error e ↔
        predict_vulnerability env code (mkRat 1 2) = Except.error e) ∧
      ∀ (rep : Report) (env2 : MLEnv), analyze_file env p code = Except.ok (rep, env2) →
        rep.file_path = p ∧ rep.static_findings = analyze_code_static code ∧
        predict_vulnerability env code (mkRat 1 2) = Except.ok (rep.ml_result, env2) ∧
        rep.severity = compute_severity (analyze_code_static code) rep.ml_result (mkRat 1 2) := by
  refine ⟨?_, ?_, ?_⟩
  · intro hc ha
    simp [analyze_file, predict_vulnerability, load_model, hc, ha]
  · intro e
    rw [analyze_file]
    cases hp : predict_vulnerability env code (mkRat 1 2) with
    | error e2 => simp
    | ok pr =>
      obtain ⟨mlr, env3⟩ := pr
      simp
  · intro rep env2 hok
    rw [analyze_file] at hok
    cases hp : predict_vulnerability env code (mkRat 1 2) with
    | error e2 => rw [hp] at hok; exact absurd hok (by simp)
    | ok pr =>
      obtain ⟨mlr, env3⟩ := pr
      rw [hp] at hok
      simp only [Except.ok.injEq, Prod.mk.injEq] at hok
      obtain ⟨hrep, henv⟩ := hok
      subst henv
      rw [← hrep]
      exact ⟨rfl, rfl, rfl, rfl⟩

/-- C7 witness: cold cache and missing artifact make `analyze_file` fail with
the propagated FileNotFoundError. -/
theorem spec_C7_witness :
    analyze_file ⟨"models/code_vuln_model.joblib", none, none⟩ "f.py" "x = 1" =
      Except.error (MLError.fileNotFoundError
        ("ML model not found at " ++
          (MLEnv.mk "models/code_vuln_model.joblib" none none).model_path ++
          ". Run train_model.py first to train and save the model.")) :=
  (spec_C7 ⟨"models/code_vuln_model.joblib", none, none⟩ "f.py" "x = 1").1 rfl rfl

end MajorProject
